import Mathlib

/-!
Verification of the NetSentry monitoring engine against its specification.

This file shallowly embeds the monitoring backend of the repository:
the probe executor and status evaluator (`src/monitoring-backend/src/services/monitoringService.js`),
the persisted device and alert records (`src/monitoring-backend/src/models/Device.js`,
`src/monitoring-backend/src/models/Alert.js`), the device controller's cache
discipline (`DeviceController`), the cron-driven monitoring job, and the
WebSocket broadcast hub (`WebSocketService`).  Asynchronous I/O is modelled by
passing the outcome of each network interaction as an explicit value; stores
(the alert table, the redis key space, the hub's maps) are threaded as explicit
state.
-/

namespace NetSentry

/-- Device status enumeration from the Sequelize model:
`ENUM('online', 'offline', 'warning', 'unknown')`. -/
inductive Status
  | online
  | offline
  | warning
  | unknown
  deriving DecidableEq, Repr

/-- Alert severity enumeration from the Sequelize model:
`ENUM('disaster', 'warning', 'information')`. -/
inductive Level
  | disaster
  | warning
  | information
  deriving DecidableEq, Repr

/-- JavaScript truthiness of the nullable `error` string field
(`null` and the empty string are falsy, every other string is truthy). -/
def jsTruthyStr : Option String → Bool
  | none => false
  | some s => !(s.isEmpty)

/-- JavaScript comparison `x > b` where `x` is a nullable number:
`null > b` is `false`; otherwise the ordinary numeric comparison. -/
def jsGtNum : Option Nat → Nat → Bool
  | none, _ => false
  | some t, b => decide (b < t)

/-- JavaScript template interpolation of a nullable number
(`${null}` renders as the string "null"). -/
def jsNumToString : Option Nat → String
  | none => "null"
  | some t => toString t

/-- Result object produced by `checkPing` / `checkHttp` in
`monitoringService.js`: `{success, responseTime, statusCode?, error}`.
The ping path never sets `statusCode` (the field is absent, i.e. `none`). -/
structure ProbeResult where
  success : Bool
  responseTime : Option Nat
  statusCode : Option Nat
  error : Option String
  deriving DecidableEq, Repr

/-- Network outcome of one ICMP probe (`ping.promise.probe`): the host
answered within the timeout after `time` milliseconds, the host gave no
reply (`alive = false`), or the ping library threw an exception with
message `msg`. -/
inductive PingOutcome
  | alive (time : Nat)
  | dead
  | exn (msg : String)
  deriving DecidableEq, Repr

/-- Error kinds distinguished by the `catch` branch of `checkHttp`:
`error.code === "ECONNREFUSED"`, `error.code === "ETIMEDOUT"`, or any
other exception carrying `error.message`. -/
inductive HttpErrKind
  | connRefused
  | connTimeout
  | other (msg : String)
  deriving DecidableEq, Repr

/-- Network outcome of one HTTP probe (`axios.get` with
`validateStatus: status < 500`): either the request resolved with an HTTP
status code and a measured response time, or it rejected with an optional
`error.response.status` and an error kind. -/
inductive HttpOutcome
  | resp (statusCode : Nat) (responseTime : Nat)
  | err (statusCode : Option Nat) (kind : HttpErrKind)
  deriving DecidableEq, Repr

/-- The probe the monitoring service ran for a device: `checkHttp` when the
device has a `checkUrl`, `checkPing` against `device.ip` otherwise. -/
inductive ProbeOutcome
  | ping (o : PingOutcome)
  | http (o : HttpOutcome)
  deriving DecidableEq, Repr

/-- Embedding of `MonitoringService.checkPing` (monitoringService.js).
On a reply: `{success: true, responseTime: Math.round(result.time), error: null}`.
On no reply: `{success: false, responseTime: null, error: "Host unreachable"}`.
On an exception: `{success: false, responseTime: null, error: error.message}`. -/
def checkPing : PingOutcome → ProbeResult
  | .alive t => { success := true, responseTime := some t, statusCode := none, error := none }
  | .dead =>
      { success := false, responseTime := none, statusCode := none,
        error := some "Host unreachable" }
  | .exn m => { success := false, responseTime := none, statusCode := none, error := some m }

/-- Embedding of `MonitoringService.checkHttp` (monitoringService.js).
A resolved response gives `success: status < 400`, the measured response
time, and `error: status >= 400 ? "HTTP <status>" : null`.  A rejected
request gives `success: false`, `responseTime: null`, and an error string
chosen by `error.code` ("Connection refused" / "Connection timeout" /
`error.message`). -/
def checkHttp : HttpOutcome → ProbeResult
  | .resp code rt =>
      { success := decide (code < 400), responseTime := some rt, statusCode := some code,
        error := if 400 ≤ code then some ("HTTP " ++ toString code) else none }
  | .err code kind =>
      { success := false, responseTime := none, statusCode := code,
        error := some (match kind with
          | .connRefused => "Connection refused"
          | .connTimeout => "Connection timeout"
          | .other m => m) }

/-- The probe dispatch at the top of `checkDevice`:
`device.checkUrl ? checkHttp(...) : checkPing(device.ip)`. -/
def runProbe : ProbeOutcome → ProbeResult
  | .ping o => checkPing o
  | .http o => checkHttp o

/-- Well-formedness of an environment outcome: exception messages raised by
the ping / HTTP libraries are non-empty strings (a thrown `Error` in either
library always carries a message).  The structured error strings produced by
the code itself ("Host unreachable", "HTTP <status>", "Connection refused",
"Connection timeout") need no such assumption. -/
def OutcomeWF : ProbeOutcome → Prop
  | .ping (.exn m) => m ≠ ""
  | .http (.err _ (.other m)) => m ≠ ""
  | _ => True

instance : DecidablePred OutcomeWF := by
  intro o
  unfold OutcomeWF
  rcases o with (_ | _ | m) | (⟨c, t⟩ | ⟨c, _ | _ | m⟩) <;> infer_instance

/-- Status computation of `checkDevice` (monitoringService.js):
start from "unknown"; `if (result.success) status = "online"; else if
(result.error) status = "offline";` then demote a slow success:
`if (status === "online" && result.responseTime > 1000) status = "warning"`. -/
def computeStatus (r : ProbeResult) : Status :=
  let status : Status :=
    if r.success then .online
    else if jsTruthyStr r.error then .offline
    else .unknown
  match status, jsGtNum r.responseTime 1000 with
  | .online, true => .warning
  | s, _ => s

/-- Persisted device record (`Device.js`), restricted to the fields the
monitoring engine reads or writes. -/
structure Device where
  id : Nat
  name : String
  ip : String
  status : Status
  responseTime : Option Nat
  lastCheck : Option Nat
  checkUrl : Option String
  port : Option Nat
  isActive : Bool
  consecutiveFailures : Nat
  lastError : Option String
  deriving DecidableEq, Repr

/-- Embedding of `Device.prototype.updateStatus(status, responseTime, error)`
(Device.js): set `status`, `responseTime`, `lastCheck = new Date()`; on
"offline" or "warning" increment `consecutiveFailures` and store the `error`
argument in `lastError`; otherwise reset `consecutiveFailures` to 0 and
`lastError` to `null`. -/
def Device.updateStatus (d : Device) (status : Status) (responseTime : Option Nat)
    (error : Option String) (now : Nat) : Device :=
  let d := { d with status := status, responseTime := responseTime, lastCheck := some now }
  if status = .offline ∨ status = .warning then
    { d with consecutiveFailures := d.consecutiveFailures + 1, lastError := error }
  else
    { d with consecutiveFailures := 0, lastError := none }

/-- Persisted alert record (`Alert.js`). -/
structure Alert where
  id : Nat
  deviceId : Nat
  device : String
  message : String
  level : Level
  timestamp : Nat
  acknowledged : Bool
  acknowledgedBy : Option String
  acknowledgedAt : Option Nat
  resolved : Bool
  resolvedAt : Option Nat
  emailSent : Bool
  deriving DecidableEq, Repr

/-- Embedding of `Alert.prototype.resolve` (Alert.js):
`resolved = true; resolvedAt = new Date()`. -/
def Alert.resolve (a : Alert) (now : Nat) : Alert :=
  { a with resolved := true, resolvedAt := some now }

/-- The alert table, in insertion order, together with the next
auto-increment id. -/
structure AlertStore where
  alerts : List Alert
  nextId : Nat
  deriving DecidableEq, Repr

/-- Embedding of `Alert.create({deviceId, device, message, level, timestamp})`
inside `MonitoringService.createAlert`: all other columns take their model
defaults (`acknowledged: false`, `resolved: false`, `emailSent: false`,
nullable columns `null`). -/
def AlertStore.create (st : AlertStore) (deviceId : Nat) (deviceName message : String)
    (level : Level) (now : Nat) : Alert × AlertStore :=
  let a : Alert :=
    { id := st.nextId, deviceId := deviceId, device := deviceName, message := message,
      level := level, timestamp := now, acknowledged := false, acknowledgedBy := none,
      acknowledgedAt := none, resolved := false, resolvedAt := none, emailSent := false }
  (a, { alerts := st.alerts ++ [a], nextId := st.nextId + 1 })

/-- Embedding of `MonitoringService.resolveDeviceAlerts(deviceId)`
(monitoringService.js): fetch every alert of the device with
`resolved: false` and call `resolve()` on each one. -/
def resolveDeviceAlerts (st : AlertStore) (deviceId : Nat) (now : Nat) : AlertStore :=
  { st with alerts := st.alerts.map fun a =>
      if a.deviceId = deviceId ∧ a.resolved = false then a.resolve now else a }

/-- Return value of `checkDevice`:
`{status, responseTime, previousStatus}`. -/
structure CheckResult where
  status : Status
  responseTime : Option Nat
  previousStatus : Status
  deriving DecidableEq, Repr

/-- Everything one `checkDevice` call produces: the updated device record,
the updated alert table, the list of alerts created by this call (in
creation order), and the returned result object. -/
structure CheckOutput where
  device : Device
  store : AlertStore
  created : List Alert
  result : CheckResult
  deriving DecidableEq, Repr

/-- Embedding of `MonitoringService.checkDevice(device)`
(monitoringService.js).  The probe outcome `o` stands for the network
behaviour observed by the one probe the call runs; `now` is the wall clock.
Mirrors the source line by line: compute the status, persist it with
`device.updateStatus(status, result.responseTime, result.error)`, then walk
the alert transition chain (`online → offline` disaster; `* → warning` with
previous ≠ warning; `{offline, warning} → online` information followed by
`resolveDeviceAlerts`). -/
def checkDevice (d : Device) (o : ProbeOutcome) (st : AlertStore) (now : Nat) : CheckOutput :=
  let r := runProbe o
  let status := computeStatus r
  let oldStatus := d.status
  let d2 := d.updateStatus status r.responseTime r.error now
  let res : CheckResult :=
    { status := status, responseTime := r.responseTime, previousStatus := oldStatus }
  if oldStatus = .online ∧ status = .offline then
    let (a, st2) := st.create d.id d.name "Device is unreachable" .disaster now
    { device := d2, store := st2, created := [a], result := res }
  else if status = .warning ∧ oldStatus ≠ .warning then
    let (a, st2) := st.create d.id d.name
      ("High response time: " ++ jsNumToString r.responseTime ++ "ms") .warning now
    { device := d2, store := st2, created := [a], result := res }
  else if status = .online ∧ (oldStatus = .offline ∨ oldStatus = .warning) then
    let (a, st2) := st.create d.id d.name "Device is back online" .information now
    let st3 := resolveDeviceAlerts st2 d.id now
    { device := d2, store := st3, created := [a], result := res }
  else
    { device := d2, store := st, created := [], result := res }

/-- One endpoint of the scheduled cycle: the network outcome its probe would
observe, or the exception a persistence step of its `checkDevice` call throws
(`device.save()` in `updateStatus` or `Alert.create` in `createAlert` rethrow;
probe errors never throw, and `resolveDeviceAlerts` swallows its own errors). -/
inductive CheckAttempt
  | ok (o : ProbeOutcome)
  | throws (msg : String)
  deriving DecidableEq, Repr

/-- Whether the attempt throws. -/
def CheckAttempt.isThrow : CheckAttempt → Bool
  | .ok _ => false
  | .throws _ => true

/-- One element of the `results` array built by `checkAllDevices`: either
`{device: device.name, ...result}` or `{device: device.name, error: message}`. -/
inductive CycleEntry
  | result (device : String) (r : CheckResult)
  | errorEntry (device : String) (error : String)
  deriving DecidableEq, Repr

/-- The `device` field of a cycle entry. -/
def CycleEntry.deviceName : CycleEntry → String
  | .result n _ => n
  | .errorEntry n _ => n

/-- Whether the entry is the catch-branch error record. -/
def CycleEntry.isError : CycleEntry → Bool
  | .result _ _ => false
  | .errorEntry _ _ => true

/-- Embedding of `MonitoringService.checkAllDevices` (monitoringService.js):
iterate over the active devices in order; each `checkDevice` call is wrapped
in try/catch, a throwing check contributes `{device, error}` to the results
and the loop continues with the next device. -/
def checkAllDevices : List (Device × CheckAttempt) → AlertStore → Nat →
    List CycleEntry × AlertStore
  | [], st, _ => ([], st)
  | (d, .ok o) :: rest, st, now =>
      let out := checkDevice d o st now
      let next := checkAllDevices rest out.store now
      (.result d.name out.result :: next.1, next.2)
  | (d, .throws m) :: rest, st, now =>
      let next := checkAllDevices rest st now
      (.errorEntry d.name m :: next.1, next.2)

/-! ## Cache coordinator

The redis cache is modelled by the list of keys currently present; values and
TTLs play no role in the invalidation claims.  `redisClient.del k` removes the
key, `redisClient.invalidatePattern "devices:list:*"` removes every key the
glob matches, i.e. every key starting with `"devices:list:"`. -/

/-- Embedding of `redisClient.del(key)` on the key space. -/
def cacheDel (c : List String) (k : String) : List String :=
  c.filter fun x => x ≠ k

/-- Prefix test on character lists (executable model of the redis glob
`p*`, which matches exactly the keys whose text begins with `p`). -/
def listPre : List Char → List Char → Bool
  | [], _ => true
  | _ :: _, [] => false
  | a :: as, b :: bs => a == b && listPre as bs

/-- Whether the string `s` begins with `p`. -/
def strStarts (s p : String) : Bool := listPre p.data s.data

/-- Embedding of `redisClient.invalidatePattern("devices:list:*")` on the key
space: SCAN + DEL of every key matching the glob. -/
def invalidateListKeys (c : List String) : List String :=
  c.filter fun k => !(strStarts k "devices:list:")

/-- The id-scoped cache key used by `DeviceController.getById`:
`device:<id>`. -/
def deviceKey (id : Nat) : String := "device:" ++ toString id

/-- Cache effect of `DeviceController.update` (after the record update):
`redisClient.del("device:" + id)` then
`redisClient.invalidatePattern("devices:list:*")`. -/
def DeviceController.updateInvalidation (id : Nat) (c : List String) : List String :=
  invalidateListKeys (cacheDel c (deviceKey id))

/-- Cache effect of `DeviceController.delete` (after `device.destroy()`):
same two calls as `update`. -/
def DeviceController.deleteInvalidation (id : Nat) (c : List String) : List String :=
  invalidateListKeys (cacheDel c (deviceKey id))

/-- Cache effect of `DeviceController.checkDevice` (the manual check) after
`monitoringService.checkDevice` runs: same two calls as `update`. -/
def DeviceController.checkInvalidation (id : Nat) (c : List String) : List String :=
  invalidateListKeys (cacheDel c (deviceKey id))

/-- Cache effect of `DeviceController.create`: only
`redisClient.invalidatePattern("devices:list:*")`; the controller issues no
`del` for the new device's id-scoped key. -/
def DeviceController.createInvalidation (c : List String) : List String :=
  invalidateListKeys c

/-- Cache effect of a scheduled check cycle: `MonitoringService.checkAllDevices`
and the `deviceMonitoring` cron callback in the monitoring job contain no
redis call at all, so the key space is left untouched by automatic status
changes. -/
def checkAllDevicesInvalidation (c : List String) : List String := c

/-- Whether a read of key `k` hits the cache (`redisClient.get` returns a
cached value exactly when the key is present). -/
def cacheHit (c : List String) (k : String) : Bool := c.contains k

/-! ## Scheduler

`MonitoringJob.startDeviceMonitoring` registers the check cycle with
`cron.schedule(expr, async () => { ... await checkAllDevices() ... })`.
node-cron invokes the callback on every matching tick; the class keeps no
in-flight flag and the callback runs the cycle unconditionally, so the model
counts how many cycles are executing at once.  A tick starts one more cycle;
a finishing cycle retires one. -/

/-- Number of monitoring cycles currently executing. -/
structure SchedulerState where
  inFlight : Nat
  deriving DecidableEq, Repr

/-- Scheduler-level events: a cron tick fires, or a running cycle finishes. -/
inductive SchedEvent
  | tick
  | cycleFinish
  deriving DecidableEq, Repr

/-- Effect of one scheduler event: the cron callback starts a cycle on every
tick (there is no guard consulting an in-flight flag, hence no skip path). -/
def MonitoringJob.step (st : SchedulerState) : SchedEvent → SchedulerState
  | .tick => { inFlight := st.inFlight + 1 }
  | .cycleFinish => { inFlight := st.inFlight - 1 }

/-- Run the scheduler from the idle state over a sequence of events. -/
def MonitoringJob.run (events : List SchedEvent) : SchedulerState :=
  events.foldl MonitoringJob.step { inFlight := 0 }

/-! ## Broadcast hub (`WebSocketService`, src/unnamed/part_004)

`connectedClients` and `deviceSubscriptions` are JavaScript `Map`s: keyed
collections in insertion order.  They are embedded as association lists with
`mapGet` / `mapSet` / `mapDelete` mirroring `Map.get` / `Map.set` /
`Map.delete` (set replaces in place, inserts at the end when absent). -/

/-- Lookup in an association list (`Map.get`). -/
def mapGet {α β : Type} [DecidableEq α] : List (α × β) → α → Option β
  | [], _ => none
  | (k2, v) :: rest, k => if k2 = k then some v else mapGet rest k

/-- Key membership (`Map.has`). -/
def mapHas {α β : Type} [DecidableEq α] (m : List (α × β)) (k : α) : Bool :=
  (mapGet m k).isSome

/-- Insert or replace (`Map.set`): replaces the entry in place when the key is
present, appends otherwise. -/
def mapSet {α β : Type} [DecidableEq α] : List (α × β) → α → β → List (α × β)
  | [], k, v => [(k, v)]
  | (k2, v2) :: rest, k, v =>
      if k2 = k then (k, v) :: rest else (k2, v2) :: mapSet rest k v

/-- Removal (`Map.delete`). -/
def mapDelete {α β : Type} [DecidableEq α] : List (α × β) → α → List (α × β)
  | [], _ => []
  | (k2, v2) :: rest, k => if k2 = k then rest else (k2, v2) :: mapDelete rest k

/-- Per-connection record stored in `connectedClients`
(`{socketId, userId, username, role, connectedAt, subscriptions}`; the
socket id is the map key and `connectedAt` is irrelevant to the claims). -/
structure ClientInfo where
  userId : Nat
  username : String
  role : String
  subscriptions : List Nat
  deriving DecidableEq, Repr

/-- The hub's shared state: the connection map and the
`deviceId → socketIds` subscription index. -/
structure HubState where
  connectedClients : List (String × ClientInfo)
  deviceSubscriptions : List (Nat × List String)
  deriving DecidableEq, Repr

/-- The empty hub (constructor state of `WebSocketService`). -/
def HubState.init : HubState :=
  { connectedClients := [], deviceSubscriptions := [] }

/-- Embedding of `WebSocketService.handleConnection`: register the client
with an empty subscription list. -/
def WebSocketService.handleConnection (st : HubState) (sid : String) (userId : Nat)
    (username role : String) : HubState :=
  let info : ClientInfo :=
    { userId := userId, username := username, role := role, subscriptions := [] }
  { st with connectedClients := mapSet st.connectedClients sid info }

/-- Embedding of `WebSocketService.handleDeviceSubscribe`.  A falsy
`deviceId` (`0`) is rejected.  A missing index entry is first created empty;
the socket id is pushed unless already present, and the client record (when
it exists) gets the device id pushed unless already present. -/
def WebSocketService.handleDeviceSubscribe (st : HubState) (sid : String)
    (deviceId : Nat) : HubState :=
  if deviceId = 0 then st
  else
    let subscribers := (mapGet st.deviceSubscriptions deviceId).getD []
    if sid ∈ subscribers then st
    else
      let newSubs := mapSet st.deviceSubscriptions deviceId (subscribers ++ [sid])
      let newClients :=
        match mapGet st.connectedClients sid with
        | none => st.connectedClients
        | some c =>
            if deviceId ∈ c.subscriptions then st.connectedClients
            else mapSet st.connectedClients sid
              { c with subscriptions := c.subscriptions ++ [deviceId] }
      { connectedClients := newClients, deviceSubscriptions := newSubs }

/-- Removal of one socket id from one index entry, with the
delete-when-empty step; shared verbatim by `handleDeviceUnsubscribe` and the
per-device loop of `handleDisconnection`. -/
def WebSocketService.removeSubscriber (subs : List (Nat × List String)) (deviceId : Nat)
    (sid : String) : List (Nat × List String) :=
  match mapGet subs deviceId with
  | none => subs
  | some subscribers =>
      if sid ∈ subscribers then
        let remaining := subscribers.erase sid
        if remaining.isEmpty then mapDelete subs deviceId
        else mapSet subs deviceId remaining
      else subs

/-- Embedding of `WebSocketService.handleDeviceUnsubscribe`: when the socket
is in the entry, splice it out (delete the entry once empty) and splice the
device id out of the client record. -/
def WebSocketService.handleDeviceUnsubscribe (st : HubState) (sid : String)
    (deviceId : Nat) : HubState :=
  if deviceId = 0 then st
  else
    match mapGet st.deviceSubscriptions deviceId with
    | none => st
    | some subscribers =>
        if sid ∈ subscribers then
          let newClients :=
            match mapGet st.connectedClients sid with
            | none => st.connectedClients
            | some c =>
                mapSet st.connectedClients sid
                  { c with subscriptions := c.subscriptions.erase deviceId }
          { connectedClients := newClients,
            deviceSubscriptions :=
              WebSocketService.removeSubscriber st.deviceSubscriptions deviceId sid }
        else st

/-- Embedding of `WebSocketService.handleDisconnection`: walk the client's
subscription list removing the socket from each index entry (deleting
emptied entries), then drop the client from the connection map. -/
def WebSocketService.handleDisconnection (st : HubState) (sid : String) : HubState :=
  let newSubs :=
    match mapGet st.connectedClients sid with
    | none => st.deviceSubscriptions
    | some c =>
        c.subscriptions.foldl
          (fun subs d => WebSocketService.removeSubscriber subs d sid)
          st.deviceSubscriptions
  { connectedClients := mapDelete st.connectedClients sid,
    deviceSubscriptions := newSubs }

/-- What one `sendDeviceUpdate` call emits: a `device:update` event to a
specific list of sockets, or the generic `device:status` broadcast to every
connection. -/
inductive Delivery
  | scoped (recipients : List String)
  | broadcastStatus
  deriving DecidableEq, Repr

/-- Embedding of `WebSocketService.sendDeviceUpdate(deviceId, updateData)`:
when the index has an entry for the device, emit `device:update` to exactly
those of its sockets that are still connected (`socket && socket.connected`);
otherwise `io.emit("device:status", ...)` to all connections.  `connected`
is the connectivity predicate of the socket.io server. -/
def WebSocketService.sendDeviceUpdate (st : HubState) (connected : String → Bool)
    (deviceId : Nat) : Delivery :=
  match mapGet st.deviceSubscriptions deviceId with
  | some subscribers => .scoped (subscribers.filter connected)
  | none => .broadcastStatus

/-- Hub events, one per handler. -/
inductive HubEvent
  | connect (sid : String) (userId : Nat) (username role : String)
  | subscribe (sid : String) (deviceId : Nat)
  | unsubscribe (sid : String) (deviceId : Nat)
  | disconnect (sid : String)
  deriving DecidableEq, Repr

/-- Dispatch of a hub event to its handler. -/
def applyEvent (st : HubState) : HubEvent → HubState
  | .connect sid uid un r => WebSocketService.handleConnection st sid uid un r
  | .subscribe sid d => WebSocketService.handleDeviceSubscribe st sid d
  | .unsubscribe sid d => WebSocketService.handleDeviceUnsubscribe st sid d
  | .disconnect sid => WebSocketService.handleDisconnection st sid

/-- The socket.io delivery discipline under which the handlers run: socket
ids are fresh at connection time (ids are never reused), and the per-socket
listeners registered by `setupEventListeners` only fire between that
socket's `connection` event and its `disconnect` event. -/
def Admissible (st : HubState) : HubEvent → Prop
  | .connect sid _ _ _ => mapHas st.connectedClients sid = false
  | .subscribe sid _ => mapHas st.connectedClients sid = true
  | .unsubscribe sid _ => mapHas st.connectedClients sid = true
  | .disconnect sid => mapHas st.connectedClients sid = true

/-- Hub states reachable from the empty hub by admissible event sequences. -/
inductive Reachable : HubState → Prop
  | init : Reachable HubState.init
  | step {st : HubState} {e : HubEvent} :
      Reachable st → Admissible st e → Reachable (applyEvent st e)

instance (st : HubState) (e : HubEvent) : Decidable (Admissible st e) := by
  unfold Admissible
  cases e <;> infer_instance

/-- Per-entry invariant of the subscription index relative to a connection
map: every entry is a non-empty duplicate-free socket list, and every listed
socket is a registered client whose own record lists that device. -/
def SubsOK (clients : List (String × ClientInfo))
    (subs : List (Nat × List String)) : Prop :=
  ∀ d l, mapGet subs d = some l →
    l ≠ [] ∧ l.Nodup ∧
    ∀ s ∈ l, ∃ c, mapGet clients s = some c ∧ d ∈ c.subscriptions

/-- Invariant of the hub state maintained by the four handlers: map keys are
free of duplicates and the subscription index satisfies `SubsOK`. -/
def HubInv (st : HubState) : Prop :=
  (st.connectedClients.map Prod.fst).Nodup ∧
  (st.deviceSubscriptions.map Prod.fst).Nodup ∧
  SubsOK st.connectedClients st.deviceSubscriptions

/-! ## Concrete instances used by the witnesses and counterexamples -/

/-- A healthy HTTP-checked device, as the scheduler would see it. -/
def devOnline : Device :=
  { id := 5, name := "web-server", ip := "10.0.0.5", status := .online,
    responseTime := some 20, lastCheck := some 100, checkUrl := some "http://host/health",
    port := none, isActive := true, consecutiveFailures := 0, lastError := none }

/-- A ping-checked device currently believed offline. -/
def devOffline : Device :=
  { id := 6, name := "db-server", ip := "10.0.0.6", status := .offline,
    responseTime := none, lastCheck := some 90, checkUrl := none, port := none,
    isActive := true, consecutiveFailures := 3, lastError := some "Host unreachable" }

/-- The empty alert table. -/
def emptyStore : AlertStore := { alerts := [], nextId := 1 }

/-- An unresolved disaster alert for `devOffline`. -/
def openAlert : Alert :=
  { id := 1, deviceId := 6, device := "db-server",
    message := "Device is unreachable", level := .disaster, timestamp := 50,
    acknowledged := false, acknowledgedBy := none, acknowledgedAt := none,
    resolved := false, resolvedAt := none, emailSent := false }

/-- An alert table holding only `openAlert`. -/
def storeOpen : AlertStore := { alerts := [openAlert], nextId := 2 }

/-- Scenario E hub state: two connections subscribed to device 7, none to 9. -/
def hubE : HubState :=
  { connectedClients :=
      [("sockA", { userId := 1, username := "alice", role := "admin", subscriptions := [7] }),
       ("sockB", { userId := 2, username := "bob", role := "user", subscriptions := [7] })],
    deviceSubscriptions := [(7, ["sockA", "sockB"])] }

/-- Connectivity predicate under which every socket is still connected. -/
def connAll : String → Bool := fun _ => true

/-- A cache holding one id-scoped and one list-scoped key, as left by a
`getById` and a `getAll` read. -/
def staleCache : List String := ["device:5", "devices:list:all:all:none"]

/-- Reachable hub history for the invariant witness: `a` connects and
subscribes to device 7, `b` connects and subscribes to device 7, then `a`
disconnects. -/
def hubW0 : HubState := HubState.init

/-- After `a` connects. -/
def hubW1 : HubState := applyEvent hubW0 (.connect "a" 1 "alice" "admin")

/-- After `a` subscribes to device 7. -/
def hubW2 : HubState := applyEvent hubW1 (.subscribe "a" 7)

/-- After `b` connects. -/
def hubW3 : HubState := applyEvent hubW2 (.connect "b" 2 "bob" "user")

/-- After `b` subscribes to device 7. -/
def hubW4 : HubState := applyEvent hubW3 (.subscribe "b" 7)

/-- After `a` disconnects. -/
def hubW5 : HubState := applyEvent hubW4 (.disconnect "a")

/-! ## Status evaluator lemmas -/

/-- A successful probe is classified by the response-time threshold alone. -/
theorem computeStatus_success (r : ProbeResult) (hs : r.success = true) :
    computeStatus r = if jsGtNum r.responseTime 1000 then Status.warning
                      else Status.online := by
  simp only [computeStatus, hs, if_true]
  cases hg : jsGtNum r.responseTime 1000 <;> simp [hg]

/-- A failed probe is classified by the truthiness of its error string. -/
theorem computeStatus_failure (r : ProbeResult) (hs : r.success = false) :
    computeStatus r = if jsTruthyStr r.error then Status.offline
                      else Status.unknown := by
  simp only [computeStatus, hs]
  cases he : jsTruthyStr r.error <;>
    cases hg : jsGtNum r.responseTime 1000 <;> simp [he, hg]

/-- The structured error string of an HTTP 4xx response is never empty. -/
theorem httpErrString_ne_empty (c : Nat) : ("HTTP " ++ toString c) ≠ "" := by
  intro h
  have h2 := congrArg String.length h
  rw [String.length_append] at h2
  have h5 : ("HTTP ").length = 5 := rfl
  have h0 : ("" : String).length = 0 := rfl
  rw [h5, h0] at h2
  omega

/-- C1: for every probe outcome (with the library exception messages
non-empty), the status computed by `checkDevice` is determined solely by the
probe result: a success at most 1000 ms yields online, a success above
1000 ms yields warning (also for an HTTP probe answering 2xx), and a failure
yields offline. -/
theorem claim_C1_status_decision_table (o : ProbeOutcome) (h : OutcomeWF o) :
    ((runProbe o).success = true →
      ∃ t, (runProbe o).responseTime = some t ∧
        (t ≤ 1000 → computeStatus (runProbe o) = Status.online) ∧
        (1000 < t → computeStatus (runProbe o) = Status.warning)) ∧
    ((runProbe o).success = false → computeStatus (runProbe o) = Status.offline) := by
  rcases o with (t | _ | m) | (⟨code, rt⟩ | ⟨code, kind⟩)
  · -- ping, host alive after t ms
    refine ⟨fun _ => ⟨t, rfl, fun hle => ?_, fun hgt => ?_⟩, fun hs => ?_⟩
    · rw [computeStatus_success _ rfl]
      have : jsGtNum (runProbe (.ping (.alive t))).responseTime 1000 = false := by
        simp only [runProbe, checkPing, jsGtNum, decide_eq_false_iff_not,
          decide_eq_true_eq]
        omega
      simp [this]
    · rw [computeStatus_success _ rfl]
      have : jsGtNum (runProbe (.ping (.alive t))).responseTime 1000 = true := by
        simp only [runProbe, checkPing, jsGtNum, decide_eq_false_iff_not,
          decide_eq_true_eq]
        omega
      simp [this]
    · simp [runProbe, checkPing] at hs
  · -- ping, no reply within the timeout
    refine ⟨fun hs => ?_, fun _ => ?_⟩
    · simp [runProbe, checkPing] at hs
    · rw [computeStatus_failure _ rfl]
      simp [runProbe, checkPing, jsTruthyStr]
      decide
  · -- ping library exception with message m ≠ ""
    refine ⟨fun hs => ?_, fun _ => ?_⟩
    · simp [runProbe, checkPing] at hs
    · rw [computeStatus_failure _ rfl]
      have hm : m ≠ "" := h
      simp [runProbe, checkPing, jsTruthyStr, String.isEmpty_iff, hm]
  · -- HTTP request resolved with status code and response time
    refine ⟨fun hs => ⟨rt, rfl, fun hle => ?_, fun hgt => ?_⟩, fun hs => ?_⟩
    · rw [computeStatus_success _ hs]
      have : jsGtNum (runProbe (.http (.resp code rt))).responseTime 1000 = false := by
        simp only [runProbe, checkHttp, jsGtNum, decide_eq_false_iff_not,
          decide_eq_true_eq]
        omega
      simp [this]
    · rw [computeStatus_success _ hs]
      have : jsGtNum (runProbe (.http (.resp code rt))).responseTime 1000 = true := by
        simp only [runProbe, checkHttp, jsGtNum, decide_eq_false_iff_not,
          decide_eq_true_eq]
        omega
      simp [this]
    · rw [computeStatus_failure _ hs]
      have hc : 400 ≤ code := by
        simp only [runProbe, checkHttp, decide_eq_false_iff_not, Nat.not_lt] at hs
        exact hs
      have herr : (runProbe (.http (.resp code rt))).error =
          some ("HTTP " ++ toString code) := by
        simp [runProbe, checkHttp, hc]
      rw [herr]
      simp [jsTruthyStr, String.isEmpty_iff, httpErrString_ne_empty code]
  · -- HTTP request rejected
    refine ⟨fun hs => ?_, fun _ => ?_⟩
    · simp [runProbe, checkHttp] at hs
    · rw [computeStatus_failure _ rfl]
      cases kind with
      | connRefused =>
          simp [runProbe, checkHttp, jsTruthyStr]
          decide
      | connTimeout =>
          simp [runProbe, checkHttp, jsTruthyStr]
          decide
      | other m =>
          have hm : m ≠ "" := h
          simp [runProbe, checkHttp, jsTruthyStr, String.isEmpty_iff, hm]

/-- Witness for C1: the Scenario D probe, an HTTP 200 answered in 1500 ms,
is a successful probe classified as warning. -/
theorem claim_C1_witness :
    computeStatus (runProbe (.http (.resp 200 1500))) = Status.warning := by
  obtain ⟨t, ht, _, hw⟩ :=
    (claim_C1_status_decision_table (.http (.resp 200 1500)) trivial).1 (by decide)
  have ht2 : t = 1500 := by
    simp [runProbe, checkHttp] at ht
    omega
  exact hw (by omega)

/-- A warning classification can only arise from a successful probe. -/
theorem success_of_warning (r : ProbeResult) (h : computeStatus r = Status.warning) :
    r.success = true := by
  by_contra hs
  have hs2 : r.success = false := by
    revert hs
    cases r.success <;> simp
  rw [computeStatus_failure r hs2] at h
  cases hb : jsTruthyStr r.error <;> rw [hb] at h <;> simp at h

/-- A successful probe carries no error string
(`checkPing` and `checkHttp` both set `error: null` on success). -/
theorem runProbe_error_of_success (o : ProbeOutcome) (h : (runProbe o).success = true) :
    (runProbe o).error = none := by
  rcases o with (t | _ | m) | (⟨code, rt⟩ | ⟨code, kind⟩)
  · rfl
  · simp [runProbe, checkPing] at h
  · simp [runProbe, checkPing] at h
  · have hc : code < 400 := by simpa [runProbe, checkHttp] using h
    have hc2 : ¬ 400 ≤ code := by omega
    simp [runProbe, checkHttp, hc2]
  · simp [runProbe, checkHttp] at h

/-- The device record written by `checkDevice` is the same in every alert
branch: `device.updateStatus(status, result.responseTime, result.error)`. -/
theorem checkDevice_device (d : Device) (o : ProbeOutcome) (st : AlertStore) (now : Nat) :
    (checkDevice d o st now).device =
      d.updateStatus (computeStatus (runProbe o)) (runProbe o).responseTime
        (runProbe o).error now := by
  simp only [checkDevice]
  split_ifs <;> rfl

/-- The alerts created by one `checkDevice` call, by transition case. -/
theorem checkDevice_created (d : Device) (o : ProbeOutcome) (st : AlertStore) (now : Nat) :
    (checkDevice d o st now).created =
      if d.status = Status.online ∧ computeStatus (runProbe o) = Status.offline then
        [(st.create d.id d.name "Device is unreachable" .disaster now).1]
      else if computeStatus (runProbe o) = Status.warning ∧ d.status ≠ Status.warning then
        [(st.create d.id d.name
            ("High response time: " ++ jsNumToString (runProbe o).responseTime ++ "ms")
            .warning now).1]
      else if computeStatus (runProbe o) = Status.online ∧
          (d.status = Status.offline ∨ d.status = Status.warning) then
        [(st.create d.id d.name "Device is back online" .information now).1]
      else [] := by
  simp only [checkDevice]
  split_ifs <;> rfl

/-- On a recovery transition the store update is: create the information
alert, then bulk-resolve the device's alerts (in that order). -/
theorem checkDevice_store_recovery (d : Device) (o : ProbeOutcome) (st : AlertStore)
    (now : Nat) (hold : d.status = Status.offline ∨ d.status = Status.warning)
    (hnew : computeStatus (runProbe o) = Status.online) :
    (checkDevice d o st now).store =
      resolveDeviceAlerts
        (st.create d.id d.name "Device is back online" .information now).2 d.id now ∧
    (checkDevice d o st now).created =
      [(st.create d.id d.name "Device is back online" .information now).1] := by
  have h1 : ¬(d.status = Status.online ∧ computeStatus (runProbe o) = Status.offline) := by
    intro hc
    rw [hnew] at hc
    exact absurd hc.2 (by decide)
  have h2 : ¬(computeStatus (runProbe o) = Status.warning ∧ d.status ≠ Status.warning) := by
    intro hc
    rw [hnew] at hc
    exact absurd hc.1 (by decide)
  simp only [checkDevice]
  rw [if_neg h1, if_neg h2, if_pos ⟨hnew, hold⟩]
  exact ⟨rfl, rfl⟩

/-- C2: the alerts created by a single check are exactly: one disaster alert
"Device is unreachable" on online → offline; one warning alert carrying the
measured response time when the new status is warning and the previous one
was not (none on sustained warning); one information alert on
{offline, warning} → online; and none for any other transition. -/
theorem claim_C2_alert_transitions (d : Device) (o : ProbeOutcome) (st : AlertStore)
    (now : Nat) :
    (d.status = Status.online ∧ computeStatus (runProbe o) = Status.offline →
      (checkDevice d o st now).created.map (fun a => (a.level, a.message)) =
        [(Level.disaster, "Device is unreachable")]) ∧
    (computeStatus (runProbe o) = Status.warning ∧ d.status ≠ Status.warning →
      (checkDevice d o st now).created.map (fun a => (a.level, a.message)) =
        [(Level.warning,
          "High response time: " ++ jsNumToString (runProbe o).responseTime ++ "ms")]) ∧
    (computeStatus (runProbe o) = Status.warning ∧ d.status = Status.warning →
      (checkDevice d o st now).created = []) ∧
    (computeStatus (runProbe o) = Status.online ∧
        (d.status = Status.offline ∨ d.status = Status.warning) →
      (checkDevice d o st now).created.map (fun a => (a.level, a.message)) =
        [(Level.information, "Device is back online")]) ∧
    (¬(d.status = Status.online ∧ computeStatus (runProbe o) = Status.offline) →
      ¬(computeStatus (runProbe o) = Status.warning ∧ d.status ≠ Status.warning) →
      ¬(computeStatus (runProbe o) = Status.online ∧
          (d.status = Status.offline ∨ d.status = Status.warning)) →
      (checkDevice d o st now).created = []) := by
  rw [checkDevice_created]
  refine ⟨fun h => ?_, fun h => ?_, fun h => ?_, fun h => ?_, fun h1 h2 h3 => ?_⟩
  · rw [if_pos h]
    simp [AlertStore.create]
  · have h1 : ¬(d.status = Status.online ∧ computeStatus (runProbe o) = Status.offline) := by
      intro hc
      rw [h.1] at hc
      exact absurd hc.2 (by decide)
    rw [if_neg h1, if_pos h]
    simp [AlertStore.create]
  · have h1 : ¬(d.status = Status.online ∧ computeStatus (runProbe o) = Status.offline) := by
      intro hc
      rw [h.2] at hc
      exact absurd hc.1 (by decide)
    have h2 : ¬(computeStatus (runProbe o) = Status.warning ∧ d.status ≠ Status.warning) := by
      intro hc
      exact hc.2 h.2
    have h3 : ¬(computeStatus (runProbe o) = Status.online ∧
        (d.status = Status.offline ∨ d.status = Status.warning)) := by
      intro hc
      rw [h.1] at hc
      exact absurd hc.1 (by decide)
    rw [if_neg h1, if_neg h2, if_neg h3]
  · have h1 : ¬(d.status = Status.online ∧ computeStatus (runProbe o) = Status.offline) := by
      intro hc
      rw [h.1] at hc
      exact absurd hc.2 (by decide)
    have h2 : ¬(computeStatus (runProbe o) = Status.warning ∧ d.status ≠ Status.warning) := by
      intro hc
      rw [h.1] at hc
      exact absurd hc.1 (by decide)
    rw [if_neg h1, if_neg h2, if_pos h]
    simp [AlertStore.create]
  · rw [if_neg h1, if_neg h2, if_neg h3]

/-- Witness for C2: a device believed online whose ping probe gets no reply
produces exactly one disaster alert "Device is unreachable". -/
theorem claim_C2_witness :
    (checkDevice devOnline (.ping .dead) emptyStore 7).created.map
        (fun a => (a.level, a.message)) = [(Level.disaster, "Device is unreachable")] :=
  (claim_C2_alert_transitions devOnline (.ping .dead) emptyStore 7).1 ⟨rfl, by decide⟩

/-- Counterexample for C4: the Scenario D check (HTTP 200 in 1500 ms) sets
the status to warning but leaves `lastError` null — the string
"high response time" is never stored. -/
theorem claim_C4_counterexample :
    (checkDevice devOnline (.http (.resp 200 1500)) emptyStore 7).device.status
        = Status.warning ∧
    (checkDevice devOnline (.http (.resp 200 1500)) emptyStore 7).device.lastError = none ∧
    ¬ (checkDevice devOnline (.http (.resp 200 1500)) emptyStore 7).device.lastError
        = some "high response time" := by
  refine ⟨by decide, by decide, by decide⟩

/-- C4 (amended): every check sets `status`, `responseTimeMs` and
`lastCheckedAt = now`; an offline outcome increments `consecutiveFailures`
and stores the probe error in `lastError`; a warning outcome (slow success)
increments `consecutiveFailures` and leaves `lastError` null (the probe
reported no error; no "high response time" marker is stored); an online
outcome resets `consecutiveFailures` to 0 and `lastError` to null. -/
theorem claim_C4_endpoint_side_effects (d : Device) (o : ProbeOutcome) (st : AlertStore)
    (now : Nat) :
    (checkDevice d o st now).device.status = computeStatus (runProbe o) ∧
    (checkDevice d o st now).device.responseTime = (runProbe o).responseTime ∧
    (checkDevice d o st now).device.lastCheck = some now ∧
    (computeStatus (runProbe o) = Status.offline →
      (checkDevice d o st now).device.consecutiveFailures = d.consecutiveFailures + 1 ∧
      (checkDevice d o st now).device.lastError = (runProbe o).error) ∧
    (computeStatus (runProbe o) = Status.warning →
      (checkDevice d o st now).device.consecutiveFailures = d.consecutiveFailures + 1 ∧
      (checkDevice d o st now).device.lastError = none) ∧
    (computeStatus (runProbe o) = Status.online →
      (checkDevice d o st now).device.consecutiveFailures = 0 ∧
      (checkDevice d o st now).device.lastError = none) := by
  rw [checkDevice_device]
  unfold Device.updateStatus
  refine ⟨?_, ?_, ?_, fun h => ?_, fun h => ?_, fun h => ?_⟩
  · split_ifs <;> rfl
  · split_ifs <;> rfl
  · split_ifs <;> rfl
  · rw [h]
    simp
  · rw [h]
    simp
    exact runProbe_error_of_success o (success_of_warning _ h)
  · rw [h]
    simp

/-- Witness for C4: the Scenario D check increments the failure counter and
stores a null `lastError`. -/
theorem claim_C4_witness :
    (checkDevice devOnline (.http (.resp 200 1500)) emptyStore 7).device.consecutiveFailures
        = devOnline.consecutiveFailures + 1 ∧
    (checkDevice devOnline (.http (.resp 200 1500)) emptyStore 7).device.lastError = none :=
  (claim_C4_endpoint_side_effects devOnline (.http (.resp 200 1500)) emptyStore 7).2.2.2.2.1
    (by decide)

/-- Positional effect of the bulk resolve: entry `i` is the old entry,
resolved when it belonged to the device and was still open. -/
theorem resolveDeviceAlerts_get (st : AlertStore) (dId now i : Nat)
    (hi : i < st.alerts.length) :
    ∃ hj : i < (resolveDeviceAlerts st dId now).alerts.length,
      (resolveDeviceAlerts st dId now).alerts.get ⟨i, hj⟩ =
        (if (st.alerts.get ⟨i, hi⟩).deviceId = dId ∧
            (st.alerts.get ⟨i, hi⟩).resolved = false
         then (st.alerts.get ⟨i, hi⟩).resolve now
         else st.alerts.get ⟨i, hi⟩) := by
  have hj : i < (resolveDeviceAlerts st dId now).alerts.length := by
    simpa [resolveDeviceAlerts] using hi
  refine ⟨hj, ?_⟩
  simp only [resolveDeviceAlerts]
  rw [List.get_eq_getElem, List.getElem_map, List.get_eq_getElem]

/-- C5: on a {offline, warning} → online transition, the check creates
exactly one information alert "Device is back online", and every alert of
the device that was unresolved before the check ends up with
`resolved = true` and `resolvedAt = now`, whatever its level. -/
theorem claim_C5_recovery_bulk_resolve (d : Device) (o : ProbeOutcome) (st : AlertStore)
    (now : Nat) (hold : d.status = Status.offline ∨ d.status = Status.warning)
    (hnew : computeStatus (runProbe o) = Status.online) :
    (checkDevice d o st now).created.map (fun a => (a.level, a.message)) =
      [(Level.information, "Device is back online")] ∧
    ∀ i, ∀ hi : i < st.alerts.length,
      (st.alerts.get ⟨i, hi⟩).deviceId = d.id →
      (st.alerts.get ⟨i, hi⟩).resolved = false →
      ∃ hj : i < (checkDevice d o st now).store.alerts.length,
        ((checkDevice d o st now).store.alerts.get ⟨i, hj⟩).id
            = (st.alerts.get ⟨i, hi⟩).id ∧
        ((checkDevice d o st now).store.alerts.get ⟨i, hj⟩).level
            = (st.alerts.get ⟨i, hi⟩).level ∧
        ((checkDevice d o st now).store.alerts.get ⟨i, hj⟩).resolved = true ∧
        ((checkDevice d o st now).store.alerts.get ⟨i, hj⟩).resolvedAt = some now := by
  obtain ⟨hstore, hcreated⟩ := checkDevice_store_recovery d o st now hold hnew
  constructor
  · rw [hcreated]
    simp [AlertStore.create]
  · intro i hi hdev hres
    rw [hstore]
    have hi2 : i <
        (st.create d.id d.name "Device is back online" .information now).2.alerts.length := by
      simp only [AlertStore.create, List.length_append, List.length_cons, List.length_nil]
      omega
    obtain ⟨hj, hget⟩ := resolveDeviceAlerts_get
      (st.create d.id d.name "Device is back online" .information now).2 d.id now i hi2
    have hbase :
        (st.create d.id d.name "Device is back online" .information now).2.alerts.get ⟨i, hi2⟩
          = st.alerts.get ⟨i, hi⟩ := by
      simp only [AlertStore.create]
      rw [List.get_eq_getElem, List.get_eq_getElem, List.getElem_append_left hi]
    rw [hbase, if_pos ⟨hdev, hres⟩] at hget
    refine ⟨hj, ?_, ?_, ?_, ?_⟩ <;> rw [hget] <;> simp [Alert.resolve]

/-- Witness for C5: Scenario C — an offline device answers a ping in 30 ms;
one information alert is created and the whole table ends up resolved. -/
theorem claim_C5_witness :
    (checkDevice devOffline (.ping (.alive 30)) storeOpen 42).created.map
        (fun a => (a.level, a.message)) = [(Level.information, "Device is back online")] ∧
    (checkDevice devOffline (.ping (.alive 30)) storeOpen 42).store.alerts.all
        (fun a => a.resolved) = true := by
  refine ⟨(claim_C5_recovery_bulk_resolve devOffline (.ping (.alive 30)) storeOpen 42
    (Or.inl rfl) (by decide)).1, by decide⟩

/-- C9: the recovery alert is created before the bulk resolve runs, so it is
itself swept up by it — after a recovery check the device has no unresolved
alert at all, and the just-created information alert sits in the store
already resolved with `resolvedAt = now`. -/
theorem claim_C9_recovery_alert_self_resolved (d : Device) (o : ProbeOutcome)
    (st : AlertStore) (now : Nat)
    (hold : d.status = Status.offline ∨ d.status = Status.warning)
    (hnew : computeStatus (runProbe o) = Status.online) :
    (∀ a ∈ (checkDevice d o st now).store.alerts, a.deviceId = d.id → a.resolved = true) ∧
    ∃ a, a ∈ (checkDevice d o st now).store.alerts ∧
      a.deviceId = d.id ∧ a.level = Level.information ∧
      a.message = "Device is back online" ∧ a.resolved = true ∧ a.resolvedAt = some now := by
  obtain ⟨hstore, _⟩ := checkDevice_store_recovery d o st now hold hnew
  rw [hstore]
  constructor
  · intro a ha hdev
    simp only [resolveDeviceAlerts, List.mem_map] at ha
    obtain ⟨a0, ha0, rfl⟩ := ha
    by_cases hc : a0.deviceId = d.id ∧ a0.resolved = false
    · rw [if_pos hc]
      rfl
    · rw [if_neg hc]
      rw [if_neg hc] at hdev
      rcases Bool.eq_false_or_eq_true a0.resolved with hr | hr
      · exact hr
      · exact absurd ⟨hdev, hr⟩ hc
  · refine ⟨Alert.resolve
        (st.create d.id d.name "Device is back online" .information now).1 now, ?_,
        rfl, rfl, rfl, rfl, rfl⟩
    simp only [resolveDeviceAlerts]
    rw [List.mem_map]
    refine ⟨(st.create d.id d.name "Device is back online" .information now).1, ?_, ?_⟩
    · show _ ∈ st.alerts ++ [(st.create d.id d.name "Device is back online" .information now).1]
      exact List.mem_append_right _ (List.mem_singleton_self _)
    · rw [if_pos ⟨rfl, rfl⟩]

/-- Witness for C9: in the Scenario C check every alert of the device — the
pre-existing disaster alert and the fresh recovery alert — is resolved. -/
theorem claim_C9_witness :
    ∃ a, a ∈ (checkDevice devOffline (.ping (.alive 25)) storeOpen 42).store.alerts ∧
      a.deviceId = devOffline.id ∧ a.level = Level.information ∧
      a.message = "Device is back online" ∧ a.resolved = true ∧ a.resolvedAt = some 42 :=
  (claim_C9_recovery_alert_self_resolved devOffline (.ping (.alive 25)) storeOpen 42
    (Or.inl rfl) (by decide)).2

/-- C6: `sendDeviceUpdate` delivers the scoped `device:update` event exactly
to the still-connected sockets of the device's index entry when one exists,
and falls back to the global `device:status` broadcast when the device has
no entry. -/
theorem claim_C6_send_device_update (st : HubState) (connected : String → Bool)
    (deviceId : Nat) :
    (∀ l, mapGet st.deviceSubscriptions deviceId = some l →
      WebSocketService.sendDeviceUpdate st connected deviceId
          = Delivery.scoped (l.filter connected) ∧
      ∀ s, s ∈ l.filter connected ↔ s ∈ l ∧ connected s = true) ∧
    (mapGet st.deviceSubscriptions deviceId = none →
      WebSocketService.sendDeviceUpdate st connected deviceId
          = Delivery.broadcastStatus) := by
  constructor
  · intro l hl
    constructor
    · simp [WebSocketService.sendDeviceUpdate, hl]
    · intro s
      simp [List.mem_filter]
  · intro hl
    simp [WebSocketService.sendDeviceUpdate, hl]

/-- Witness for C6: Scenario E — both subscribers of device 7 and nobody
else receive the scoped event; device 9 has no entry, so the call becomes
the global broadcast. -/
theorem claim_C6_witness :
    WebSocketService.sendDeviceUpdate hubE connAll 7
        = Delivery.scoped ["sockA", "sockB"] ∧
    WebSocketService.sendDeviceUpdate hubE connAll 9 = Delivery.broadcastStatus := by
  constructor
  · have h := (claim_C6_send_device_update hubE connAll 7).1 ["sockA", "sockB"] (by decide)
    rw [h.1]
    rfl
  · exact (claim_C6_send_device_update hubE connAll 9).2 (by decide)

/-- C7: the check cycle records an entry for every active device, in order:
the entry carries the device's name, and it is the catch-branch error record
exactly when that device's check threw — one device's failure never aborts
the cycle or skips the remaining devices. -/
theorem claim_C7_cycle_failure_isolation (devices : List (Device × CheckAttempt))
    (st : AlertStore) (now : Nat) :
    (checkAllDevices devices st now).1.map CycleEntry.deviceName
        = devices.map (fun p => p.1.name) ∧
    (checkAllDevices devices st now).1.map CycleEntry.isError
        = devices.map (fun p => p.2.isThrow) := by
  induction devices generalizing st with
  | nil => exact ⟨rfl, rfl⟩
  | cons p rest ih =>
      obtain ⟨d, a⟩ := p
      cases a with
      | ok o =>
          have h := ih (checkDevice d o st now).store
          simp only [checkAllDevices, List.map_cons]
          exact ⟨by rw [← h.1]; rfl, by rw [← h.2]; rfl⟩
      | throws m =>
          have h := ih st
          simp only [checkAllDevices, List.map_cons]
          exact ⟨by rw [← h.1]; rfl, by rw [← h.2]; rfl⟩

/-- C8: the cron-registered monitoring callback has no in-flight guard — a
tick firing while a cycle is still executing starts a second concurrent
cycle instead of being skipped; after two ticks with no finished cycle two
runs of the same action overlap. -/
theorem claim_C8_overlapping_cycles :
    MonitoringJob.run [SchedEvent.tick, SchedEvent.tick] = { inFlight := 2 } ∧
    1 < (MonitoringJob.run [SchedEvent.tick, SchedEvent.tick]).inFlight := by
  exact ⟨rfl, by decide⟩

/-- Counterexample for C3: an automatic status change performed by the
scheduled check cycle touches no cache key — both the id-scoped key and the
cached list survive, and the next reads still hit them. -/
theorem claim_C3_counterexample :
    checkAllDevicesInvalidation staleCache = staleCache ∧
    cacheHit (checkAllDevicesInvalidation staleCache) "device:5" = true ∧
    cacheHit (checkAllDevicesInvalidation staleCache) "devices:list:all:all:none" = true := by
  exact ⟨rfl, by decide, by decide⟩

/-- Every key surviving the list-pattern invalidation was present before and
does not match the pattern. -/
theorem cacheHit_invalidateListKeys (c : List String) (k : String)
    (h : cacheHit (invalidateListKeys c) k = true) :
    cacheHit c k = true ∧ strStarts k "devices:list:" = false := by
  have hm : k ∈ c.filter (fun x => !(strStarts x "devices:list:")) := by
    simpa [cacheHit, invalidateListKeys, List.contains] using h
  rw [List.mem_filter] at hm
  constructor
  · simpa [cacheHit, List.contains] using hm.1
  · simpa using hm.2

/-- Deleting a key removes it. -/
theorem cacheHit_cacheDel_self (c : List String) (k : String) :
    cacheHit (cacheDel c k) k = false := by
  simp [cacheHit, cacheDel, List.contains, List.mem_filter]

/-- C3 (amended): update, delete and manual check remove the device's
id-scoped key and every list-scoped key; create removes the list-scoped keys
only (it issues no id-scoped delete); the automatic status changes of the
scheduled check cycle perform no cache invalidation at all, leaving every
key in place. -/
theorem claim_C3_mutation_invalidation (c : List String) (id : Nat) :
    cacheHit (DeviceController.updateInvalidation id c) (deviceKey id) = false ∧
    (∀ k, strStarts k "devices:list:" = true →
      cacheHit (DeviceController.updateInvalidation id c) k = false) ∧
    cacheHit (DeviceController.deleteInvalidation id c) (deviceKey id) = false ∧
    (∀ k, strStarts k "devices:list:" = true →
      cacheHit (DeviceController.deleteInvalidation id c) k = false) ∧
    cacheHit (DeviceController.checkInvalidation id c) (deviceKey id) = false ∧
    (∀ k, strStarts k "devices:list:" = true →
      cacheHit (DeviceController.checkInvalidation id c) k = false) ∧
    (∀ k, strStarts k "devices:list:" = true →
      cacheHit (DeviceController.createInvalidation c) k = false) ∧
    checkAllDevicesInvalidation c = c := by
  have hid : ∀ x : List String, cacheHit (invalidateListKeys (cacheDel x (deviceKey id)))
      (deviceKey id) = false := by
    intro x
    rcases hb : cacheHit (invalidateListKeys (cacheDel x (deviceKey id))) (deviceKey id) with _ | _
    · rfl
    · have h2 := (cacheHit_invalidateListKeys _ _ hb).1
      rw [cacheHit_cacheDel_self] at h2
      cases h2
  have hpat : ∀ (x : List String) (k : String), strStarts k "devices:list:" = true →
      cacheHit (invalidateListKeys x) k = false := by
    intro x k hk
    rcases hb : cacheHit (invalidateListKeys x) k with _ | _
    · rfl
    · have h2 := (cacheHit_invalidateListKeys _ _ hb).2
      rw [hk] at h2
      cases h2
  exact ⟨hid c, fun k hk => hpat _ k hk, hid c, fun k hk => hpat _ k hk, hid c,
    fun k hk => hpat _ k hk, fun k hk => hpat c k hk, rfl⟩

/-- Witness for C3 (amended): on the concrete stale cache, a manual check of
device 5 removes both its id-scoped key and the cached list. -/
theorem claim_C3_witness :
    cacheHit (DeviceController.checkInvalidation 5 staleCache) (deviceKey 5) = false ∧
    cacheHit (DeviceController.checkInvalidation 5 staleCache)
        "devices:list:all:all:none" = false := by
  have h := claim_C3_mutation_invalidation staleCache 5
  exact ⟨h.2.2.2.2.1, h.2.2.2.2.2.1 "devices:list:all:all:none" (by decide)⟩

/-! ## Association-list map lemmas (the `Map.get/set/delete` calculus) -/

theorem mapGet_set_self {α β : Type} [DecidableEq α] (m : List (α × β)) (k : α) (v : β) :
    mapGet (mapSet m k v) k = some v := by
  induction m with
  | nil => simp [mapSet, mapGet]
  | cons p rest ih =>
      obtain ⟨k2, v2⟩ := p
      by_cases h : k2 = k
      · simp [mapSet, h, mapGet]
      · simp [mapSet, h, mapGet, ih]

theorem mapGet_set_other {α β : Type} [DecidableEq α] (m : List (α × β)) (k k2 : α) (v : β)
    (h : k2 ≠ k) : mapGet (mapSet m k v) k2 = mapGet m k2 := by
  induction m with
  | nil => simp [mapSet, mapGet, Ne.symm h]
  | cons p rest ih =>
      obtain ⟨k3, v3⟩ := p
      by_cases h3 : k3 = k
      · subst h3
        simp [mapSet, mapGet, Ne.symm h]
      · by_cases h2 : k3 = k2
        · simp [mapSet, h3, mapGet, h2, h]
        · simp [mapSet, h3, mapGet, h2, ih]

theorem mem_keys_of_mapGet {α β : Type} [DecidableEq α] {m : List (α × β)} {k : α} {v : β}
    (h : mapGet m k = some v) : k ∈ m.map Prod.fst := by
  induction m with
  | nil => simp [mapGet] at h
  | cons p rest ih =>
      obtain ⟨k2, v2⟩ := p
      by_cases h2 : k2 = k
      · simp [h2]
      · rw [mapGet, if_neg h2] at h
        simp [ih h]

theorem mapGet_none_of_not_mem {α β : Type} [DecidableEq α] {m : List (α × β)} {k : α}
    (h : k ∉ m.map Prod.fst) : mapGet m k = none := by
  induction m with
  | nil => rfl
  | cons p rest ih =>
      obtain ⟨k2, v2⟩ := p
      simp only [List.map_cons, List.mem_cons] at h
      push_neg at h
      rw [mapGet, if_neg (Ne.symm h.1)]
      exact ih h.2

theorem mem_keys_set {α β : Type} [DecidableEq α] {m : List (α × β)} {k a : α} {v : β}
    (h : a ∈ (mapSet m k v).map Prod.fst) : a ∈ m.map Prod.fst ∨ a = k := by
  induction m with
  | nil => simpa [mapSet] using h
  | cons p rest ih =>
      obtain ⟨k2, v2⟩ := p
      by_cases h2 : k2 = k
      · rw [mapSet, if_pos h2] at h
        simp only [List.map_cons, List.mem_cons] at h ⊢
        rcases h with h | h
        · exact Or.inr h
        · exact Or.inl (Or.inr h)
      · rw [mapSet, if_neg h2] at h
        simp only [List.map_cons, List.mem_cons] at h ⊢
        rcases h with h | h
        · exact Or.inl (Or.inl h)
        · rcases ih h with h3 | h3
          · exact Or.inl (Or.inr h3)
          · exact Or.inr h3

theorem nodup_keys_set {α β : Type} [DecidableEq α] {m : List (α × β)} (k : α) (v : β)
    (h : (m.map Prod.fst).Nodup) : ((mapSet m k v).map Prod.fst).Nodup := by
  induction m with
  | nil => simp [mapSet]
  | cons p rest ih =>
      obtain ⟨k2, v2⟩ := p
      simp only [List.map_cons, List.nodup_cons] at h
      by_cases h2 : k2 = k
      · rw [mapSet, if_pos h2]
        simp only [List.map_cons, List.nodup_cons]
        exact ⟨h2 ▸ h.1, h.2⟩
      · rw [mapSet, if_neg h2]
        simp only [List.map_cons, List.nodup_cons]
        refine ⟨fun hc => ?_, ih h.2⟩
        rcases mem_keys_set hc with h3 | h3
        · exact h.1 h3
        · exact h2 h3

theorem keys_delete_sublist {α β : Type} [DecidableEq α] (m : List (α × β)) (k : α) :
    List.Sublist ((mapDelete m k).map Prod.fst) (m.map Prod.fst) := by
  induction m with
  | nil => simp [mapDelete]
  | cons p rest ih =>
      obtain ⟨k2, v2⟩ := p
      by_cases h2 : k2 = k
      · rw [mapDelete, if_pos h2]
        simp only [List.map_cons]
        exact (List.sublist_cons_self _ _)
      · rw [mapDelete, if_neg h2]
        simp only [List.map_cons]
        exact List.Sublist.cons₂ _ ih

theorem nodup_keys_delete {α β : Type} [DecidableEq α] {m : List (α × β)} (k : α)
    (h : (m.map Prod.fst).Nodup) : ((mapDelete m k).map Prod.fst).Nodup :=
  (keys_delete_sublist m k).nodup h

theorem mapGet_delete_self {α β : Type} [DecidableEq α] {m : List (α × β)} (k : α)
    (h : (m.map Prod.fst).Nodup) : mapGet (mapDelete m k) k = none := by
  induction m with
  | nil => rfl
  | cons p rest ih =>
      obtain ⟨k2, v2⟩ := p
      simp only [List.map_cons, List.nodup_cons] at h
      by_cases h2 : k2 = k
      · rw [mapDelete, if_pos h2]
        exact mapGet_none_of_not_mem (h2 ▸ h.1)
      · rw [mapDelete, if_neg h2, mapGet, if_neg h2]
        exact ih h.2

theorem mapGet_delete_other {α β : Type} [DecidableEq α] (m : List (α × β)) (k k2 : α)
    (h : k2 ≠ k) : mapGet (mapDelete m k) k2 = mapGet m k2 := by
  induction m with
  | nil => rfl
  | cons p rest ih =>
      obtain ⟨k3, v3⟩ := p
      by_cases h3 : k3 = k
      · subst h3
        rw [mapDelete, if_pos rfl, mapGet, if_neg (Ne.symm h)]
      · by_cases hq : k3 = k2
        · rw [mapDelete, if_neg h3, mapGet, if_pos hq, mapGet, if_pos hq]
        · rw [mapDelete, if_neg h3, mapGet, if_neg hq, mapGet, if_neg hq]
          exact ih

/-! ## Subscription-index removal lemmas -/

/-- Case analysis of `removeSubscriber`: an entry of the result is either an
untouched entry of the input (and then the socket is absent whenever it is
the targeted device's entry), or the spliced, still non-empty target entry. -/
theorem removeSubscriber_get (subs : List (Nat × List String)) (d : Nat) (sid : String)
    (hk : (subs.map Prod.fst).Nodup) (d2 : Nat) (l2 : List String)
    (h : mapGet (WebSocketService.removeSubscriber subs d sid) d2 = some l2) :
    (mapGet subs d2 = some l2 ∧ (d2 ≠ d ∨ sid ∉ l2)) ∨
    (d2 = d ∧ ∃ l, mapGet subs d = some l ∧ sid ∈ l ∧ l2 = l.erase sid ∧ l2 ≠ []) := by
  cases hget : mapGet subs d with
  | none =>
      simp only [WebSocketService.removeSubscriber, hget] at h
      left
      refine ⟨h, Or.inl fun hd => ?_⟩
      rw [hd, hget] at h
      cases h
  | some subscribers =>
      simp only [WebSocketService.removeSubscriber, hget] at h
      by_cases hmem : sid ∈ subscribers
      · rw [if_pos hmem] at h
        by_cases hemp : (subscribers.erase sid).isEmpty = true
        · rw [if_pos hemp] at h
          by_cases hd : d2 = d
          · subst hd
            rw [mapGet_delete_self d2 hk] at h
            cases h
          · rw [mapGet_delete_other subs d d2 hd] at h
            exact Or.inl ⟨h, Or.inl hd⟩
        · rw [if_neg hemp] at h
          by_cases hd : d2 = d
          · subst hd
            rw [mapGet_set_self] at h
            injection h with h
            right
            constructor
            · rfl
            · exact ⟨subscribers, rfl, hmem, h.symm,
                fun hnil => hemp (by rw [h, hnil]; rfl)⟩
          · rw [mapGet_set_other _ _ _ _ hd] at h
            exact Or.inl ⟨h, Or.inl hd⟩
      · rw [if_neg hmem] at h
        by_cases hd : d2 = d
        · subst hd
          left
          refine ⟨h, Or.inr ?_⟩
          rw [hget] at h
          injection h with h
          rw [← h]
          exact hmem
        · exact Or.inl ⟨h, Or.inl hd⟩

/-- removeSubscriber keeps the index keys duplicate-free. -/
theorem nodup_keys_removeSubscriber (subs : List (Nat × List String)) (d : Nat)
    (sid : String) (hk : (subs.map Prod.fst).Nodup) :
    (((WebSocketService.removeSubscriber subs d sid)).map Prod.fst).Nodup := by
  cases hget : mapGet subs d with
  | none => simpa [WebSocketService.removeSubscriber, hget] using hk
  | some subscribers =>
      simp only [WebSocketService.removeSubscriber, hget]
      split_ifs
      · exact nodup_keys_delete d hk
      · exact nodup_keys_set d _ hk
      · exact hk

/-- removeSubscriber preserves the per-entry invariant relative to a fixed
connection map. -/
theorem subsOK_removeSubscriber (clients : List (String × ClientInfo))
    (subs : List (Nat × List String)) (d : Nat) (sid : String)
    (hk : (subs.map Prod.fst).Nodup) (hok : SubsOK clients subs) :
    SubsOK clients (WebSocketService.removeSubscriber subs d sid) := by
  intro d2 l2 h
  rcases removeSubscriber_get subs d sid hk d2 l2 h with ⟨hold, _⟩ | ⟨hd, l, hl, _, hl2, hne⟩
  · exact hok d2 l2 hold
  · subst hd
    obtain ⟨_, hnd, hcl⟩ := hok d2 l hl
    refine ⟨hne, hl2 ▸ hnd.erase sid, ?_⟩
    intro s hs
    rw [hl2] at hs
    exact hcl s (List.erase_subset sid l hs)

/-- Folding removeSubscriber over a device list keeps the key set
duplicate-free. -/
theorem foldl_removeSubscriber_nodup (sid : String) (ds : List Nat) :
    ∀ subs : List (Nat × List String), (subs.map Prod.fst).Nodup →
    ((ds.foldl (fun s d => WebSocketService.removeSubscriber s d sid) subs).map
        Prod.fst).Nodup := by
  induction ds with
  | nil => exact fun subs hk => hk
  | cons d0 rest ih =>
      intro subs hk
      exact ih _ (nodup_keys_removeSubscriber subs d0 sid hk)

/-- Folding removeSubscriber preserves the per-entry invariant. -/
theorem foldl_removeSubscriber_subsOK (clients : List (String × ClientInfo))
    (sid : String) (ds : List Nat) :
    ∀ subs : List (Nat × List String), (subs.map Prod.fst).Nodup →
    SubsOK clients subs →
    SubsOK clients (ds.foldl (fun s d => WebSocketService.removeSubscriber s d sid) subs) := by
  induction ds with
  | nil => exact fun subs _ hok => hok
  | cons d0 rest ih =>
      intro subs hk hok
      exact ih _ (nodup_keys_removeSubscriber subs d0 sid hk)
        (subsOK_removeSubscriber clients subs d0 sid hk hok)

/-- After folding removeSubscriber over every device that lists the socket,
the socket appears in no index entry. -/
theorem foldl_removeSubscriber_clears (sid : String) (ds : List Nat) :
    ∀ subs : List (Nat × List String), (subs.map Prod.fst).Nodup →
    (∀ d l, mapGet subs d = some l → l.Nodup) →
    (∀ d l, mapGet subs d = some l → sid ∈ l → d ∈ ds) →
    ∀ d l,
      mapGet (ds.foldl (fun s d => WebSocketService.removeSubscriber s d sid) subs) d
        = some l → sid ∉ l := by
  induction ds with
  | nil =>
      intro subs _ _ hin d l hl hs
      exact absurd (hin d l hl hs) (List.not_mem_nil _)
  | cons d0 rest ih =>
      intro subs hk hnd hin
      refine ih _ (nodup_keys_removeSubscriber subs d0 sid hk) ?_ ?_
      · intro d l hl
        rcases removeSubscriber_get subs d0 sid hk d l hl with ⟨hold, _⟩ | ⟨_, l0, hl0, _, hle, _⟩
        · exact hnd d l hold
        · exact hle ▸ (hnd d0 l0 hl0).erase sid
      · intro d l hl hs
        rcases removeSubscriber_get subs d0 sid hk d l hl with
          ⟨hold, hor⟩ | ⟨_, l0, hl0, _, hle, _⟩
        · have hd0 : d ≠ d0 := by
            rcases hor with hor | hor
            · exact hor
            · exact absurd hs hor
          have := hin d l hold hs
          simp only [List.mem_cons] at this
          rcases this with h | h
          · exact absurd h hd0
          · exact h
        · rw [hle] at hs
          exact absurd hs ((hnd d0 l0 hl0).not_mem_erase)

/-! ## Hub invariant preservation -/

/-- `handleConnection` of a fresh socket id preserves the invariant. -/
theorem hubInv_connect (st : HubState) (sid : String) (uid : Nat) (un r : String)
    (hinv : HubInv st) (hnone : mapGet st.connectedClients sid = none) :
    HubInv (WebSocketService.handleConnection st sid uid un r) := by
  obtain ⟨hck, hsk, hok⟩ := hinv
  simp only [WebSocketService.handleConnection]
  refine ⟨nodup_keys_set sid _ hck, hsk, ?_⟩
  intro d l hl
  obtain ⟨hne, hnd, hcl⟩ := hok d l hl
  refine ⟨hne, hnd, fun s hs => ?_⟩
  obtain ⟨c, hc, hdc⟩ := hcl s hs
  have hss : s ≠ sid := by
    intro he
    rw [he, hnone] at hc
    cases hc
  refine ⟨c, ?_, hdc⟩
  rw [mapGet_set_other _ _ _ _ hss]
  exact hc

/-- `handleDeviceSubscribe` for a registered socket preserves the invariant. -/
theorem hubInv_subscribe (st : HubState) (sid : String) (dId : Nat)
    (hinv : HubInv st) (c0 : ClientInfo)
    (hc0 : mapGet st.connectedClients sid = some c0) :
    HubInv (WebSocketService.handleDeviceSubscribe st sid dId) := by
  obtain ⟨hck, hsk, hok⟩ := hinv
  by_cases hd0 : dId = 0
  · simp only [WebSocketService.handleDeviceSubscribe, if_pos hd0]
    exact ⟨hck, hsk, hok⟩
  · simp only [WebSocketService.handleDeviceSubscribe, if_neg hd0]
    have hsub0 : ∀ s ∈ (mapGet st.deviceSubscriptions dId).getD [],
        ∃ c, mapGet st.connectedClients s = some c ∧ dId ∈ c.subscriptions := by
      cases hgs : mapGet st.deviceSubscriptions dId with
      | none => simp
      | some l0 =>
          intro s hs
          exact (hok dId l0 hgs).2.2 s (by simpa using hs)
    have hnd0 : ((mapGet st.deviceSubscriptions dId).getD []).Nodup := by
      cases hgs : mapGet st.deviceSubscriptions dId with
      | none => simp
      | some l0 => simpa using (hok dId l0 hgs).2.1
    by_cases hsm : sid ∈ (mapGet st.deviceSubscriptions dId).getD []
    · rw [if_pos hsm]
      exact ⟨hck, hsk, hok⟩
    · rw [if_neg hsm]
      simp only [hc0]
      have hnewnd : ((mapGet st.deviceSubscriptions dId).getD [] ++ [sid]).Nodup := by
        rw [List.nodup_append]
        exact ⟨hnd0, List.nodup_singleton sid,
          fun a ha hb => hsm (by rwa [List.mem_singleton.mp hb] at ha)⟩
      by_cases hdc : dId ∈ c0.subscriptions
      · rw [if_pos hdc]
        refine ⟨hck, nodup_keys_set dId _ hsk, ?_⟩
        intro d2 l2 hl2
        by_cases hdd : d2 = dId
        · subst hdd
          rw [mapGet_set_self] at hl2
          injection hl2 with hl2
          rw [← hl2]
          refine ⟨by simp, hnewnd, fun s hs => ?_⟩
          rcases List.mem_append.mp hs with hs | hs
          · exact hsub0 s hs
          · rw [List.mem_singleton.mp hs]
            exact ⟨c0, hc0, hdc⟩
        · rw [mapGet_set_other _ _ _ _ hdd] at hl2
          exact hok d2 l2 hl2
      · rw [if_neg hdc]
        refine ⟨nodup_keys_set sid _ hck, nodup_keys_set dId _ hsk, ?_⟩
        intro d2 l2 hl2
        by_cases hdd : d2 = dId
        · subst hdd
          rw [mapGet_set_self] at hl2
          injection hl2 with hl2
          rw [← hl2]
          refine ⟨by simp, hnewnd, fun s hs => ?_⟩
          rcases List.mem_append.mp hs with hs | hs
          · obtain ⟨c, hc, hdc2⟩ := hsub0 s hs
            have hss : s ≠ sid := fun he => hsm (he ▸ hs)
            refine ⟨c, ?_, hdc2⟩
            rw [mapGet_set_other _ _ _ _ hss]
            exact hc
          · rw [List.mem_singleton.mp hs]
            refine ⟨_, mapGet_set_self _ _ _, ?_⟩
            exact List.mem_append_right _ (List.mem_singleton_self _)
        · rw [mapGet_set_other _ _ _ _ hdd] at hl2
          obtain ⟨hne, hnd, hcl⟩ := hok d2 l2 hl2
          refine ⟨hne, hnd, fun s hs => ?_⟩
          obtain ⟨c, hc, hdc2⟩ := hcl s hs
          by_cases hss : s = sid
          · subst hss
            rw [hc0] at hc
            injection hc with hc
            refine ⟨_, mapGet_set_self _ _ _, ?_⟩
            exact List.mem_append_left _ (hc ▸ hdc2)
          · refine ⟨c, ?_, hdc2⟩
            rw [mapGet_set_other _ _ _ _ hss]
            exact hc

/-- `handleDeviceUnsubscribe` preserves the invariant. -/
theorem hubInv_unsubscribe (st : HubState) (sid : String) (dId : Nat)
    (hinv : HubInv st) :
    HubInv (WebSocketService.handleDeviceUnsubscribe st sid dId) := by
  obtain ⟨hck, hsk, hok⟩ := hinv
  by_cases hd0 : dId = 0
  · simp only [WebSocketService.handleDeviceUnsubscribe, if_pos hd0]
    exact ⟨hck, hsk, hok⟩
  · cases hgs : mapGet st.deviceSubscriptions dId with
    | none =>
        simp only [WebSocketService.handleDeviceUnsubscribe, if_neg hd0, hgs]
        exact ⟨hck, hsk, hok⟩
    | some subscribers =>
        simp only [WebSocketService.handleDeviceUnsubscribe, if_neg hd0, hgs]
        by_cases hsm : sid ∈ subscribers
        · rw [if_pos hsm]
          have hsub : SubsOK st.connectedClients
              (WebSocketService.removeSubscriber st.deviceSubscriptions dId sid) :=
            subsOK_removeSubscriber st.connectedClients st.deviceSubscriptions dId sid hsk hok
          have hknew := nodup_keys_removeSubscriber st.deviceSubscriptions dId sid hsk
          cases hm : mapGet st.connectedClients sid with
          | none =>
              simp only [hm]
              exact ⟨hck, hknew, hsub⟩
          | some c0 =>
              simp only [hm]
              refine ⟨nodup_keys_set sid _ hck, hknew, ?_⟩
              intro d2 l2 hl2
              rcases removeSubscriber_get st.deviceSubscriptions dId sid hsk d2 l2 hl2 with
                ⟨hold, hor⟩ | ⟨hdd, l0, hl0, hmem0, hl2e, hne2⟩
              · obtain ⟨hne, hnd, hcl⟩ := hok d2 l2 hold
                refine ⟨hne, hnd, fun s hs => ?_⟩
                obtain ⟨c, hc, hdc2⟩ := hcl s hs
                by_cases hss : s = sid
                · subst hss
                  have hdd : d2 ≠ dId := by
                    rcases hor with hor | hor
                    · exact hor
                    · exact absurd hs hor
                  rw [hm] at hc
                  injection hc with hc
                  rw [← hc] at hdc2
                  refine ⟨_, mapGet_set_self _ _ _, ?_⟩
                  exact (List.mem_erase_of_ne hdd).mpr hdc2
                · refine ⟨c, ?_, hdc2⟩
                  rw [mapGet_set_other _ _ _ _ hss]
                  exact hc
              · subst hdd
                obtain ⟨_, hnd0, hcl0⟩ := hok _ l0 hl0
                refine ⟨hne2, hl2e ▸ hnd0.erase sid, fun s hs => ?_⟩
                rw [hl2e] at hs
                have hs2 := (hnd0.mem_erase_iff.mp hs)
                obtain ⟨c, hc, hdc2⟩ := hcl0 s hs2.2
                refine ⟨c, ?_, hdc2⟩
                rw [mapGet_set_other _ _ _ _ hs2.1]
                exact hc
        · rw [if_neg hsm]
          exact ⟨hck, hsk, hok⟩

/-- `handleDisconnection` preserves the invariant. -/
theorem hubInv_disconnect (st : HubState) (sid : String) (hinv : HubInv st) :
    HubInv (WebSocketService.handleDisconnection st sid) := by
  obtain ⟨hck, hsk, hok⟩ := hinv
  cases hm : mapGet st.connectedClients sid with
  | none =>
      simp only [WebSocketService.handleDisconnection, hm]
      refine ⟨nodup_keys_delete sid hck, hsk, ?_⟩
      intro d l hl
      obtain ⟨hne, hnd, hcl⟩ := hok d l hl
      refine ⟨hne, hnd, fun s hs => ?_⟩
      obtain ⟨c, hc, hdc⟩ := hcl s hs
      have hss : s ≠ sid := by
        intro he
        rw [he, hm] at hc
        cases hc
      refine ⟨c, ?_, hdc⟩
      rw [mapGet_delete_other _ _ _ hss]
      exact hc
  | some c0 =>
      simp only [WebSocketService.handleDisconnection, hm]
      have hsubOK := foldl_removeSubscriber_subsOK st.connectedClients sid c0.subscriptions
        st.deviceSubscriptions hsk hok
      have hknew := foldl_removeSubscriber_nodup sid c0.subscriptions
        st.deviceSubscriptions hsk
      have hcond : ∀ d l, mapGet st.deviceSubscriptions d = some l → sid ∈ l →
          d ∈ c0.subscriptions := by
        intro d l hl hs
        obtain ⟨c, hc, hdc⟩ := (hok d l hl).2.2 sid hs
        rw [hm] at hc
        injection hc with hc
        exact hc ▸ hdc
      have hclear := foldl_removeSubscriber_clears sid c0.subscriptions
        st.deviceSubscriptions hsk (fun d l hl => (hok d l hl).2.1) hcond
      refine ⟨nodup_keys_delete sid hck, hknew, ?_⟩
      intro d l hl
      obtain ⟨hne, hnd, hcl⟩ := hsubOK d l hl
      refine ⟨hne, hnd, fun s hs => ?_⟩
      obtain ⟨c, hc, hdc⟩ := hcl s hs
      have hss : s ≠ sid := fun he => hclear d l hl (he ▸ hs)
      refine ⟨c, ?_, hdc⟩
      rw [mapGet_delete_other _ _ _ hss]
      exact hc

/-- Every admissible hub event preserves the invariant. -/
theorem hubInv_applyEvent (st : HubState) (e : HubEvent) (hinv : HubInv st)
    (hadm : Admissible st e) : HubInv (applyEvent st e) := by
  cases e with
  | connect sid uid un r =>
      have hadm2 : mapHas st.connectedClients sid = false := hadm
      cases hm : mapGet st.connectedClients sid with
      | none => exact hubInv_connect st sid uid un r hinv hm
      | some c =>
          rw [mapHas, hm] at hadm2
          simp at hadm2
  | subscribe sid dId =>
      have hadm2 : mapHas st.connectedClients sid = true := hadm
      cases hm : mapGet st.connectedClients sid with
      | none =>
          rw [mapHas, hm] at hadm2
          simp at hadm2
      | some c0 => exact hubInv_subscribe st sid dId hinv c0 hm
  | unsubscribe sid dId => exact hubInv_unsubscribe st sid dId hinv
  | disconnect sid => exact hubInv_disconnect st sid hinv

/-- Every reachable hub state satisfies the invariant. -/
theorem hubInv_reachable {st : HubState} (h : Reachable st) : HubInv st := by
  induction h with
  | init =>
      refine ⟨List.nodup_nil, List.nodup_nil, ?_⟩
      intro d l hl
      simp [HubState.init, mapGet] at hl
  | step hr hadm ih => exact hubInv_applyEvent _ _ ih hadm

/-- C10: in every hub state reachable by a socket.io-admissible sequence of
connection, subscribe, unsubscribe and disconnection handler calls, every
subscription-index entry is a non-empty duplicate-free socket list, a socket
id absent from the connection map appears in no entry, and running the
disconnect handler removes the socket's connection-map entry — so a socket
whose disconnect handler has run appears in no subscriber list and has no
client entry. -/
theorem claim_C10_hub_invariant (st : HubState) (h : Reachable st) :
    (∀ d l, mapGet st.deviceSubscriptions d = some l → l ≠ [] ∧ l.Nodup) ∧
    (∀ s, mapGet st.connectedClients s = none →
      ∀ d l, mapGet st.deviceSubscriptions d = some l → s ∉ l) ∧
    (∀ s, mapGet (WebSocketService.handleDisconnection st s).connectedClients s
        = none) := by
  obtain ⟨hck, hsk, hok⟩ := hubInv_reachable h
  refine ⟨fun d l hl => ⟨(hok d l hl).1, (hok d l hl).2.1⟩, ?_, ?_⟩
  · intro s hs d l hl hmem
    obtain ⟨c, hc, _⟩ := (hok d l hl).2.2 s hmem
    rw [hs] at hc
    cases hc
  · intro s
    simp only [WebSocketService.handleDisconnection]
    exact mapGet_delete_self s hck

/-- Witness for C10: after `a` connects and subscribes to device 7, `b`
connects and subscribes to device 7, and `a` disconnects, the entry for
device 7 is exactly the non-empty duplicate-free list of `b`, the departed
socket `a` appears nowhere, and `a` has no client entry. -/
theorem claim_C10_witness :
    mapGet hubW5.deviceSubscriptions 7 = some ["b"] ∧
    (["b"] : List String) ≠ [] ∧ (["b"] : List String).Nodup ∧
    "a" ∉ (["b"] : List String) ∧
    mapGet hubW5.connectedClients "a" = none := by
  have hr1 : Reachable hubW1 := Reachable.step Reachable.init (by decide)
  have hr2 : Reachable hubW2 := Reachable.step hr1 (by decide)
  have hr3 : Reachable hubW3 := Reachable.step hr2 (by decide)
  have hr4 : Reachable hubW4 := Reachable.step hr3 (by decide)
  have hr5 : Reachable hubW5 := Reachable.step hr4 (by decide)
  have h := claim_C10_hub_invariant hubW5 hr5
  refine ⟨by decide, (h.1 7 ["b"] (by decide)).1, (h.1 7 ["b"] (by decide)).2,
    h.2.1 "a" (by decide) 7 ["b"] (by decide), by decide⟩

end NetSentry
